import Mathlib

/-!
Verification of the identity-document capture-quality pipeline.

Shallow embedding of the detection and auto-capture code:
  - src/lib/ml/types.ts            (data model, default configuration)
  - src/lib/ml/document-detector.ts (aspect-ratio and coverage validation)
  - src/lib/ml/blur-detector.ts     (sharpness thresholds and normalization,
                                     plus the legacy frame-analyzer copy that
                                     the same file contains)
  - src/lib/ml/frame-analyzer.ts    (quality aggregation)
  - the useAutoCapture hook          (debounced auto-capture state machine)

Numbers are embedded as rationals; fallible stages as Except values; the
stateful hook as explicit state passing over an event list.
-/

namespace IdvSdk

/-- Quality grade enum from types.ts. -/
inductive QualityLevel
  | poor
  | fair
  | good
  | excellent
deriving DecidableEq

/-- BoundingBox from types.ts. -/
structure BoundingBox where
  x : ℚ
  y : ℚ
  width : ℚ
  height : ℚ
deriving DecidableEq

/-- Point from types.ts. -/
structure Point where
  x : ℚ
  y : ℚ
deriving DecidableEq

/-- Per-frame detection result from types.ts; the isMoving field is the one
added by frame-analyzer.ts (the current analyzer writes it on every result). -/
structure DetectionResult where
  documentDetected : Bool
  documentConfidence : ℚ
  documentBounds : Option BoundingBox
  isBlurry : Bool
  blurScore : ℚ
  hasGlare : Bool
  glareScore : ℚ
  faceDetected : Bool
  faceConfidence : ℚ
  faceBounds : Option BoundingBox
  isMoving : Bool
  readyForCapture : Bool
  overallQuality : QualityLevel
  timestamp : ℚ
deriving DecidableEq

/-- DetectionConfig from types.ts. -/
structure DetectionConfig where
  minDocumentConfidence : ℚ
  maxBlurScore : ℚ
  maxGlareScore : ℚ
  minFaceConfidence : ℚ
  autoCaptureDelayMs : ℚ
  frameRateTarget : ℚ
  enableFaceDetection : Bool
  enableBlurDetection : Bool
  enableGlareDetection : Bool
  enableDocumentDetection : Bool
deriving DecidableEq

/-- DEFAULT_DETECTION_CONFIG from types.ts. -/
def defaultDetectionConfig : DetectionConfig :=
  { minDocumentConfidence := 1/2
    maxBlurScore := 1/2
    maxGlareScore := 4/10
    minFaceConfidence := 4/10
    autoCaptureDelayMs := 2000
    frameRateTarget := 8
    enableFaceDetection := true
    enableBlurDetection := true
    enableGlareDetection := true
    enableDocumentDetection := true }

/-- BlurDetectionResult from types.ts. -/
structure BlurDetectionResult where
  isBlurry : Bool
  score : ℚ
  variance : ℚ
deriving DecidableEq

/-- GlareDetectionResult from types.ts. -/
structure GlareDetectionResult where
  hasGlare : Bool
  score : ℚ
  hotspotCount : ℕ
  brightnessHistogram : List ℚ
deriving DecidableEq

/-- DocumentDetectionResult from types.ts. -/
structure DocumentDetectionResult where
  detected : Bool
  confidence : ℚ
  bounds : Option BoundingBox
  corners : Option (List Point)
  aspectRatio : Option ℚ
deriving DecidableEq

/-- FaceLandmark type tags from types.ts. -/
inductive FaceLandmarkType
  | leftEye
  | rightEye
  | nose
  | mouth
  | leftEar
  | rightEar
deriving DecidableEq

/-- FaceLandmark from types.ts. -/
structure FaceLandmark where
  type : FaceLandmarkType
  position : Point
deriving DecidableEq

/-- FaceDetectionResult from types.ts. -/
structure FaceDetectionResult where
  detected : Bool
  confidence : ℚ
  bounds : Option BoundingBox
  landmarks : Option (List FaceLandmark)
deriving DecidableEq

/-! ## Document detector (src/lib/ml/document-detector.ts)

Constant names are the camelCase forms of the upper-case source constants
ID_CARD_ASPECT_RATIO, ASPECT_RATIO_TOLERANCE, MIN_COVERAGE, MAX_COVERAGE. -/

/-- ID card aspect ratio (ISO/IEC 7810 ID-1), source value 1.586. -/
def idCardAspectRatio : ℚ := 1586/1000

/-- Aspect ratio tolerance, source value 0.3 (plus or minus 30 percent). -/
def aspectRatioTolerance : ℚ := 3/10

/-- Minimum document coverage of the frame, source value 0.15. -/
def minCoverage : ℚ := 15/100

/-- Maximum document coverage of the frame, source value 0.95. -/
def maxCoverage : ℚ := 95/100

/-- isAspectRatioValid from document-detector.ts: the ratio band around the
ID-1 aspect ratio, checked in both orientations. -/
def isAspectRatioValid (aspectRatio : ℚ) : Bool :=
  let minRatio := idCardAspectRatio * (1 - aspectRatioTolerance)
  let maxRatio := idCardAspectRatio * (1 + aspectRatioTolerance)
  (decide (minRatio ≤ aspectRatio) && decide (aspectRatio ≤ maxRatio)) ||
  (decide (1 / maxRatio ≤ aspectRatio) && decide (aspectRatio ≤ 1 / minRatio))

/-- extractCorners from document-detector.ts. -/
def extractCorners (bounds : BoundingBox) : List Point :=
  [ ⟨bounds.x, bounds.y⟩
  , ⟨bounds.x + bounds.width, bounds.y⟩
  , ⟨bounds.x + bounds.width, bounds.y + bounds.height⟩
  , ⟨bounds.x, bounds.y + bounds.height⟩ ]

/-- Fraction of the frame area covered by a bounding box, as computed at
document-detector.ts lines 63 and 154. -/
def coverageOf (bounds : BoundingBox) (width height : ℚ) : ℚ :=
  bounds.width * bounds.height / (width * height)

/-- calculateConfidence from document-detector.ts: base credit 0.3, bonus 0.3
for a valid aspect ratio, bonus 0.2 for coverage in [0.2, 0.8], plus the
unconditional centering bonus 0.2, capped at 1. -/
def calculateConfidence (aspectRatioOk : Bool) (coverage : ℚ) : ℚ :=
  let confidence : ℚ := 3/10
  let confidence := if aspectRatioOk then confidence + 3/10 else confidence
  let confidence :=
    if 2/10 ≤ coverage ∧ coverage ≤ 8/10 then confidence + 2/10 else confidence
  let confidence := confidence + 2/10
  min confidence 1

/-- The decision part of detectDocument (document-detector.ts lines 58 to 78):
what the full path reports once findDocumentBounds has produced a candidate
rectangle.  The source also computes isValidCoverage at line 64 but never uses
it in the decision. -/
def classifyDocumentCandidate (bounds : BoundingBox) (width height : ℚ) :
    DocumentDetectionResult :=
  let aspectRatio := bounds.width / bounds.height
  let aspectRatioOk := isAspectRatioValid aspectRatio
  let coverage := coverageOf bounds width height
  let confidence := calculateConfidence aspectRatioOk coverage
  { detected := decide (1/2 < confidence)
    confidence := confidence
    bounds := some bounds
    corners := some (extractCorners bounds)
    aspectRatio := some aspectRatio }

/-- The decision part of detectDocumentFast (document-detector.ts lines
151 to 166): what the fast path reports once findRectangularRegion has
produced a candidate rectangle. -/
def classifyDocumentCandidateFast (bounds : BoundingBox) (width height : ℚ) :
    DocumentDetectionResult :=
  let aspectRatio := bounds.width / bounds.height
  let aspectRatioOk := isAspectRatioValid aspectRatio
  let coverage := coverageOf bounds width height
  let confidence :=
    if aspectRatioOk && decide (minCoverage ≤ coverage) then
      min (1/2 + coverage * (1/2)) (95/100)
    else 3/10
  { detected := decide (1/2 < confidence)
    confidence := confidence
    bounds := some bounds
    corners := some (extractCorners bounds)
    aspectRatio := some aspectRatio }

/-! ## Blur detector (src/lib/ml/blur-detector.ts) -/

/-- BLUR_THRESHOLD_LOW from blur-detector.ts. -/
def blurThresholdLow : ℚ := 100

/-- BLUR_THRESHOLD_HIGH from blur-detector.ts. -/
def blurThresholdHigh : ℚ := 500

/-- normalizeBlurScore from blur-detector.ts. -/
def normalizeBlurScore (variance : ℚ) : ℚ :=
  if variance ≤ blurThresholdLow then
    variance / blurThresholdLow * (3/10)
  else if blurThresholdHigh ≤ variance then
    1
  else
    3/10 + (variance - blurThresholdLow) /
      (blurThresholdHigh - blurThresholdLow) * (7/10)

/-- The result assembly of detectBlur (blur-detector.ts lines 67 to 82),
as a function of the Laplacian variance the tensor pipeline produced. -/
def detectBlurCore (variance : ℚ) : BlurDetectionResult :=
  { isBlurry := decide (variance < blurThresholdLow)
    score := normalizeBlurScore variance
    variance := variance }

/-- The result assembly of detectBlurFast (blur-detector.ts lines 169 to 176),
as a function of the mean Sobel gradient (edgeVariance) and the brightness
variance the tensor pipeline produced.  The score is normalized from
edgeResponse scaled by 100, while isBlurry compares edgeResponse against the
literal 5. -/
def detectBlurFastCore (edgeResponse variance : ℚ) : BlurDetectionResult :=
  { isBlurry := decide (edgeResponse < 5)
    score := normalizeBlurScore (edgeResponse * 100)
    variance := variance }

/-! ## Frame analyzer (src/lib/ml/frame-analyzer.ts) -/

/-- isDocumentMoving from frame-analyzer.ts: motion detection is disabled in
the source and always returns false. -/
def isDocumentMoving (_currentBounds : Option BoundingBox) : Bool := false

/-- The default DetectionResult built at frame-analyzer.ts lines 112 to 127,
returned whenever a detection stage fails. -/
def defaultResult (timestamp : ℚ) : DetectionResult :=
  { documentDetected := false
    documentConfidence := 0
    documentBounds := none
    isBlurry := false
    blurScore := 1
    hasGlare := false
    glareScore := 0
    faceDetected := false
    faceConfidence := 0
    faceBounds := none
    isMoving := true
    readyForCapture := false
    overallQuality := .poor
    timestamp := timestamp }

/-- isReadyForCapture from frame-analyzer.ts lines 229 to 255 (the current
aggregator): document gate, motion gate, blur gate, glare gate; face presence
is deliberately not consulted. -/
def isReadyForCapture (result : DetectionResult) (config : DetectionConfig) : Bool :=
  if !result.documentDetected ||
      decide (result.documentConfidence < config.minDocumentConfidence) then
    false
  else if result.isMoving then
    false
  else if config.enableBlurDetection && result.isBlurry then
    false
  else if config.enableGlareDetection && result.hasGlare then
    false
  else
    true

/-- isReadyForCapture from the legacy frame-analyzer copy embedded in
blur-detector.ts (lines 388 to 413): same document, blur and glare gates but
no motion gate, and an additional face gate that fires when face detection is
enabled, no face was detected, the face detector is ready and the face
confidence is below the configured minimum. -/
def isReadyForCaptureLegacy (result : DetectionResult) (config : DetectionConfig)
    (faceDetectorReady : Bool) : Bool :=
  if !result.documentDetected ||
      decide (result.documentConfidence < config.minDocumentConfidence) then
    false
  else if config.enableBlurDetection && result.isBlurry then
    false
  else if config.enableGlareDetection && result.hasGlare then
    false
  else if config.enableFaceDetection && !result.faceDetected then
    if faceDetectorReady && decide (result.faceConfidence < config.minFaceConfidence) then
      false
    else
      true
  else
    true

/-- Replace only the three face fields of a DetectionResult. -/
def setFaceFields (result : DetectionResult) (faceDetected : Bool)
    (faceConfidence : ℚ) (faceBounds : Option BoundingBox) : DetectionResult :=
  { result with
    faceDetected := faceDetected
    faceConfidence := faceConfidence
    faceBounds := faceBounds }

/-- calculateOverallQuality from frame-analyzer.ts: weighted normalized score
(document 3, blur 2, glare 2, face 1 when enabled) mapped to the four grades
at 0.4, 0.65 and 0.85. -/
def calculateOverallQuality (result : DetectionResult) (config : DetectionConfig) :
    QualityLevel :=
  let maxScore : ℚ := 3
  let score : ℚ :=
    if result.documentDetected then min (result.documentConfidence * 3) 3 else 0
  let maxScore := if config.enableBlurDetection then maxScore + 2 else maxScore
  let score :=
    if config.enableBlurDetection && !result.isBlurry then
      score + result.blurScore * 2
    else score
  let maxScore := if config.enableGlareDetection then maxScore + 2 else maxScore
  let score :=
    if config.enableGlareDetection && !result.hasGlare then
      score + (1 - result.glareScore) * 2
    else score
  let maxScore := if config.enableFaceDetection then maxScore + 1 else maxScore
  let score :=
    if config.enableFaceDetection && result.faceDetected then
      score + result.faceConfidence
    else score
  let normalizedScore := score / maxScore
  if 85/100 ≤ normalizedScore then .excellent
  else if 65/100 ≤ normalizedScore then .good
  else if 4/10 ≤ normalizedScore then .fair
  else .poor

/-- The face result used when face detection is skipped or fails
(frame-analyzer.ts line 144). -/
def emptyFaceResult : FaceDetectionResult :=
  { detected := false, confidence := 0, bounds := none, landmarks := none }

/-- analyzeFrame from frame-analyzer.ts, as a function of the outcomes of the
individual detection stages.  A disabled stage is replaced by the literal
resolved value the source supplies; a failed stage (Except.error) among
document, blur or glare makes the whole try block fail, so the default result
is returned; a failed face stage is caught separately and leaves the empty
face result in place. -/
def analyzeFrame (config : DetectionConfig)
    (docDetect : Except Unit DocumentDetectionResult)
    (blurDetect : Except Unit BlurDetectionResult)
    (glareDetect : Except Unit GlareDetectionResult)
    (faceDetect : Except Unit FaceDetectionResult)
    (tfReady faceDetectorReady : Bool)
    (timestamp : ℚ) : DetectionResult :=
  let docStage :=
    if config.enableDocumentDetection then docDetect
    else .ok { detected := true, confidence := 1, bounds := none,
               corners := none, aspectRatio := none }
  let blurStage :=
    if config.enableBlurDetection then blurDetect
    else .ok { isBlurry := false, score := 1, variance := 0 }
  let glareStage :=
    if config.enableGlareDetection then glareDetect
    else .ok { hasGlare := false, score := 0, hotspotCount := 0,
               brightnessHistogram := [] }
  match docStage, blurStage, glareStage with
  | .ok documentResult, .ok blurResult, .ok glareResult =>
    let faceResult :=
      if config.enableFaceDetection && documentResult.detected &&
          tfReady && faceDetectorReady then
        match faceDetect with
        | .ok f => f
        | .error _ => emptyFaceResult
      else emptyFaceResult
    let moving := isDocumentMoving documentResult.bounds
    let compiled : DetectionResult :=
      { documentDetected := documentResult.detected
        documentConfidence := documentResult.confidence
        documentBounds := documentResult.bounds
        isBlurry := blurResult.isBlurry
        blurScore := blurResult.score
        hasGlare := glareResult.hasGlare
        glareScore := glareResult.score
        faceDetected := faceResult.detected
        faceConfidence := faceResult.confidence
        faceBounds := faceResult.bounds
        isMoving := moving
        readyForCapture := false
        overallQuality := .poor
        timestamp := timestamp }
    let compiled := { compiled with readyForCapture := isReadyForCapture compiled config }
    { compiled with overallQuality := calculateOverallQuality compiled config }
  | _, _, _ => defaultResult timestamp

/-! ## Auto-capture controller (the useAutoCapture hook)

The hook keeps its state in refs (countdownStartRef, rafIdRef,
stableFrameCountRef, unstableFrameCountRef, hasCapturedRef) plus one React
state value of type AutoCaptureState.  We model all of them explicitly and
turn each entry point into a state transformer; requestAnimationFrame ticks
become explicit tick events carrying the current time. -/

/-- AutoCaptureState from types.ts: the UI-visible countdown snapshot. -/
structure AutoCaptureState where
  isCountingDown : Bool
  countdownProgress : ℚ
  remainingMs : ℚ
  shouldCapture : Bool
deriving DecidableEq

/-- The hook options: delayMs, enabled, minStableFrames, gracePeriodFrames. -/
structure AutoCaptureOptions where
  delayMs : ℚ
  enabled : Bool
  minStableFrames : ℕ
  gracePeriodFrames : ℕ
deriving DecidableEq

/-- The complete mutable state of the hook. -/
structure ControllerState where
  countdownStart : Option ℚ
  rafPending : Bool
  stableFrameCount : ℕ
  unstableFrameCount : ℕ
  hasCaptured : Bool
  state : AutoCaptureState
deriving DecidableEq

/-- The initial useState value and ref values of the hook. -/
def initControllerState (opts : AutoCaptureOptions) : ControllerState :=
  { countdownStart := none
    rafPending := false
    stableFrameCount := 0
    unstableFrameCount := 0
    hasCaptured := false
    state := { isCountingDown := false, countdownProgress := 0,
               remainingMs := opts.delayMs, shouldCapture := false } }

/-- stopCountdown: cancel the pending animation frame, clear the start time,
zero both frame counters and publish the idle snapshot. -/
def stopCountdown (opts : AutoCaptureOptions) (s : ControllerState) : ControllerState :=
  { s with
    rafPending := false
    countdownStart := none
    stableFrameCount := 0
    unstableFrameCount := 0
    state := { isCountingDown := false, countdownProgress := 0,
               remainingMs := opts.delayMs, shouldCapture := false } }

/-- startCountdown: no-op when disabled or already counting; otherwise record
the start time, clear the one-shot flag and the unstable counter, and schedule
an animation frame. -/
def startCountdown (opts : AutoCaptureOptions) (s : ControllerState) (now : ℚ) :
    ControllerState :=
  if !opts.enabled || s.countdownStart.isSome then s
  else
    { s with
      countdownStart := some now
      hasCaptured := false
      unstableFrameCount := 0
      rafPending := true }

/-- One animate callback of startCountdown, at wall-clock time currentTime.
Returns the new state, whether the capture callback fired during this tick,
and the list of AutoCaptureState snapshots published (setState calls) in
order.  A tick arriving when no countdown is running (for example after
expiry) returns immediately. -/
def tick (opts : AutoCaptureOptions) (s : ControllerState) (currentTime : ℚ) :
    ControllerState × Bool × List AutoCaptureState :=
  match s.countdownStart with
  | none => (s, false, [])
  | some start =>
    let elapsed := currentTime - start
    let remaining := max 0 (opts.delayMs - elapsed)
    let progress := min (elapsed / opts.delayMs) 1
    let ui₁ : AutoCaptureState :=
      { isCountingDown := true, countdownProgress := progress,
        remainingMs := remaining, shouldCapture := false }
    if opts.delayMs ≤ elapsed then
      let ui₂ : AutoCaptureState :=
        { ui₁ with shouldCapture := true, countdownProgress := 1, remainingMs := 0 }
      let fired := !s.hasCaptured
      ({ s with state := ui₂, hasCaptured := true,
                countdownStart := none, rafPending := false },
       fired, [ui₁, ui₂])
    else
      ({ s with state := ui₁, rafPending := true }, false, [ui₁])

/-- updateDetectionResult: ignore everything once captured or when disabled; a
ready frame zeroes the unstable counter, bumps the stable counter and starts a
countdown at the stable-frame threshold; a bad frame bumps the unstable
counter and only at the grace threshold zeroes the stable counter and stops a
running countdown. -/
def updateDetectionResult (opts : AutoCaptureOptions) (s : ControllerState)
    (readyForCapture : Bool) (now : ℚ) : ControllerState :=
  if !opts.enabled || s.hasCaptured then s
  else if readyForCapture then
    let s₁ := { s with unstableFrameCount := 0,
                       stableFrameCount := s.stableFrameCount + 1 }
    if opts.minStableFrames ≤ s₁.stableFrameCount && s₁.countdownStart.isNone then
      startCountdown opts s₁ now
    else s₁
  else
    let s₁ := { s with unstableFrameCount := s.unstableFrameCount + 1 }
    if opts.gracePeriodFrames ≤ s₁.unstableFrameCount then
      let s₂ := { s₁ with stableFrameCount := 0 }
      if s₂.countdownStart.isSome then stopCountdown opts s₂ else s₂
    else s₁

/-- cancel: stop the countdown, keeping the one-shot flag. -/
def cancel (opts : AutoCaptureOptions) (s : ControllerState) : ControllerState :=
  stopCountdown opts s

/-- reset: stop the countdown and re-arm the one-shot flag. -/
def reset (opts : AutoCaptureOptions) (s : ControllerState) : ControllerState :=
  { stopCountdown opts s with hasCaptured := false }

/-- The events a controller session can receive: detection results, animation
ticks and user cancellation (reset would end the session). -/
inductive Event
  | update (readyForCapture : Bool) (now : ℚ)
  | tick (now : ℚ)
  | cancelEv
deriving DecidableEq

/-- One event step: resulting state and whether the capture callback fired. -/
def step (opts : AutoCaptureOptions) (s : ControllerState) (e : Event) :
    ControllerState × Bool :=
  match e with
  | .update r now => (updateDetectionResult opts s r now, false)
  | .tick now => ((tick opts s now).1, (tick opts s now).2.1)
  | .cancelEv => (cancel opts s, false)

/-- Run a list of events from a state. -/
def run (opts : AutoCaptureOptions) (s : ControllerState) : List Event → ControllerState
  | [] => s
  | e :: es => run opts (step opts s e).1 es

/-- Number of capture-callback invocations along a list of events. -/
def captureCount (opts : AutoCaptureOptions) (s : ControllerState) : List Event → ℕ
  | [] => 0
  | e :: es =>
    (if (step opts s e).2 then 1 else 0) + captureCount opts (step opts s e).1 es

/-- Run a list of detection results (with their times) through
updateDetectionResult. -/
def runUpdates (opts : AutoCaptureOptions) (s : ControllerState) :
    List (Bool × ℚ) → ControllerState
  | [] => s
  | (r, t) :: rs => runUpdates opts (updateDetectionResult opts s r t) rs

/-- The invariant claimed for every published AutoCaptureState snapshot. -/
def autoCaptureStateInv (opts : AutoCaptureOptions) (u : AutoCaptureState) : Prop :=
  0 ≤ u.countdownProgress ∧ u.countdownProgress ≤ 1 ∧
  0 ≤ u.remainingMs ∧ u.remainingMs ≤ opts.delayMs ∧
  u.remainingMs = opts.delayMs * (1 - u.countdownProgress) ∧
  (u.shouldCapture = true → u.countdownProgress = 1 ∧ u.remainingMs = 0)

/-! ### Sample values used by concrete witnesses and counterexamples -/

/-- A successful document stage result: detected with confidence 1. -/
def sampleDocResult : DocumentDetectionResult :=
  { detected := true, confidence := 1, bounds := none,
    corners := none, aspectRatio := none }

/-- A successful blur stage result: sharp frame. -/
def sampleBlurResult : BlurDetectionResult :=
  { isBlurry := false, score := 1, variance := 0 }

/-- A successful glare stage result: no glare. -/
def sampleGlareResult : GlareDetectionResult :=
  { hasGlare := false, score := 0, hotspotCount := 0, brightnessHistogram := [] }

/-- A clean aggregated frame analysis on the sample stage results. -/
def sampleAnalyzedFrame : DetectionResult :=
  analyzeFrame defaultDetectionConfig (.ok sampleDocResult) (.ok sampleBlurResult)
    (.ok sampleGlareResult) (.ok emptyFaceResult) false false 0

/-- A detection result with a confidently detected document, no blur, no
glare, no motion and no face. -/
def sampleNoFaceResult : DetectionResult :=
  { documentDetected := true
    documentConfidence := 1
    documentBounds := none
    isBlurry := false
    blurScore := 1
    hasGlare := false
    glareScore := 0
    faceDetected := false
    faceConfidence := 0
    faceBounds := none
    isMoving := false
    readyForCapture := false
    overallQuality := .poor
    timestamp := 0 }

/-- Hook options used by concrete witnesses: the part_017 defaults with a
2500 ms delay, three stable frames and a grace period of four frames. -/
def sampleOpts : AutoCaptureOptions :=
  { delayMs := 2500, enabled := true, minStableFrames := 3, gracePeriodFrames := 4 }

/-- A controller state just after the capture callback fired. -/
def sampleCapturedState : ControllerState :=
  { countdownStart := none
    rafPending := false
    stableFrameCount := 0
    unstableFrameCount := 0
    hasCaptured := true
    state := { isCountingDown := true, countdownProgress := 1,
               remainingMs := 0, shouldCapture := true } }

/-- A controller state in the middle of a countdown that started at time 0,
reached through three consecutive ready frames. -/
def sampleCountdownState : ControllerState :=
  { countdownStart := some 0
    rafPending := true
    stableFrameCount := 3
    unstableFrameCount := 0
    hasCaptured := false
    state := { isCountingDown := true, countdownProgress := 0,
               remainingMs := 2500, shouldCapture := false } }

/-- The one-shot safety predicate: once the capture callback has fired, no
countdown is pending. -/
def capturedIdle (s : ControllerState) : Prop :=
  s.hasCaptured = true → s.countdownStart = none

/-! ## Theorems -/

/-- Claim C6: under the default tolerance of 30 percent, the aspect-ratio
validation accepts 1.586 and its reciprocal 0.630 (both orientations) and
rejects 1.0. -/
theorem aspectRatio_default_tolerance :
    isAspectRatioValid (1586/1000) = true ∧
    isAspectRatioValid (630/1000) = true ∧
    isAspectRatioValid 1 = false := by
  refine ⟨?_, ?_, ?_⟩ <;>
    norm_num [isAspectRatioValid, idCardAspectRatio, aspectRatioTolerance]

/-- Claim C7 counterexample: the detectors report detected = true on candidate
rectangles whose coverage lies outside the 15 to 90 percent band.  The fast
path detects a full-frame rectangle (coverage 1); the full path also detects a
tiny valid-ratio rectangle of coverage 1 percent. -/
theorem coverage_band_counterexample :
    ((classifyDocumentCandidateFast ⟨0, 0, 1586, 1000⟩ 1586 1000).detected = true ∧
      ¬ (15/100 ≤ coverageOf ⟨0, 0, 1586, 1000⟩ 1586 1000 ∧
          coverageOf ⟨0, 0, 1586, 1000⟩ 1586 1000 ≤ 9/10)) ∧
    ((classifyDocumentCandidate ⟨0, 0, 1586, 1000⟩ 1586 1000).detected = true ∧
      ¬ (15/100 ≤ coverageOf ⟨0, 0, 1586, 1000⟩ 1586 1000 ∧
          coverageOf ⟨0, 0, 1586, 1000⟩ 1586 1000 ≤ 9/10)) ∧
    ((classifyDocumentCandidate ⟨0, 0, 1586/10, 100⟩ 1586 1000).detected = true ∧
      ¬ (15/100 ≤ coverageOf ⟨0, 0, 1586/10, 100⟩ 1586 1000 ∧
          coverageOf ⟨0, 0, 1586/10, 100⟩ 1586 1000 ≤ 9/10)) := by
  refine ⟨⟨?_, ?_⟩, ⟨?_, ?_⟩, ⟨?_, ?_⟩⟩ <;>
    norm_num [classifyDocumentCandidateFast, classifyDocumentCandidate,
      coverageOf, isAspectRatioValid, idCardAspectRatio, aspectRatioTolerance,
      minCoverage, calculateConfidence, min_def]

/-- The full-path confidence exceeds the 0.5 detection cutoff exactly when the
aspect ratio bonus or the coverage bonus applies. -/
theorem calculateConfidence_gt_half (aspectRatioOk : Bool) (coverage : ℚ) :
    ((1:ℚ)/2 < calculateConfidence aspectRatioOk coverage) ↔
      (aspectRatioOk = true ∨ (2/10 ≤ coverage ∧ coverage ≤ 8/10)) := by
  unfold calculateConfidence
  cases aspectRatioOk with
  | false =>
    by_cases hb : 2/10 ≤ coverage ∧ coverage ≤ 8/10
    · dsimp only
      rw [if_neg Bool.false_ne_true, if_pos hb]
      constructor
      · intro _; exact Or.inr hb
      · intro _; exact lt_min (by norm_num) (by norm_num)
    · dsimp only
      rw [if_neg Bool.false_ne_true, if_neg hb]
      constructor
      · intro h
        rcases lt_min_iff.mp h with ⟨h1, -⟩
        exfalso; norm_num at h1
      · rintro (h | h)
        · exact absurd h Bool.false_ne_true
        · exact absurd h hb
  | true =>
    by_cases hb : 2/10 ≤ coverage ∧ coverage ≤ 8/10
    · dsimp only
      rw [if_pos rfl, if_pos hb]
      constructor
      · intro _; exact Or.inl rfl
      · intro _; exact lt_min (by norm_num) (by norm_num)
    · dsimp only
      rw [if_pos rfl, if_neg hb]
      constructor
      · intro _; exact Or.inl rfl
      · intro _; exact lt_min (by norm_num) (by norm_num)

/-- Claim C7 amended: what the detection decisions actually enforce, given a
candidate rectangle.  The fast path reports detected exactly when the aspect
ratio is valid and coverage is at least MIN_COVERAGE (no upper bound); the
full path reports detected exactly when the aspect ratio is valid or coverage
lies in the confidence-bonus band [0.2, 0.8] — the coverage band never gates
the full-path decision, and the MAX_COVERAGE constant gates neither path. -/
theorem document_detection_decision_amended (bounds : BoundingBox) (width height : ℚ) :
    ((classifyDocumentCandidateFast bounds width height).detected = true ↔
      (isAspectRatioValid (bounds.width / bounds.height) = true ∧
        minCoverage ≤ coverageOf bounds width height)) ∧
    ((classifyDocumentCandidate bounds width height).detected = true ↔
      (isAspectRatioValid (bounds.width / bounds.height) = true ∨
        (2/10 ≤ coverageOf bounds width height ∧
          coverageOf bounds width height ≤ 8/10))) := by
  constructor
  · show decide ((1:ℚ)/2 <
        (if isAspectRatioValid (bounds.width / bounds.height) &&
            decide (minCoverage ≤ coverageOf bounds width height) then
          min (1/2 + coverageOf bounds width height * (1/2)) (95/100)
        else 3/10)) = true ↔ _
    rw [decide_eq_true_eq]
    cases hv : isAspectRatioValid (bounds.width / bounds.height) with
    | false =>
      rw [Bool.false_and, if_neg (by simp)]
      constructor
      · intro h; exfalso; norm_num at h
      · rintro ⟨h, -⟩; exact absurd h (by simp)
    | true =>
      by_cases hc : minCoverage ≤ coverageOf bounds width height
      · rw [Bool.true_and, if_pos (by simpa using hc)]
        constructor
        · intro _; exact ⟨rfl, hc⟩
        · intro _
          have h15 : (15:ℚ)/100 ≤ coverageOf bounds width height := hc
          exact lt_min (by linarith) (by norm_num)
      · rw [Bool.true_and, if_neg (by simpa using hc)]
        constructor
        · intro h; exfalso; norm_num at h
        · rintro ⟨-, h⟩; exact absurd h hc
  · show decide ((1:ℚ)/2 <
        calculateConfidence (isAspectRatioValid (bounds.width / bounds.height))
          (coverageOf bounds width height)) = true ↔ _
    rw [decide_eq_true_eq]
    exact calculateConfidence_gt_half _ _

/-- Claim C8 counterexample: in the fast path, a frame with mean Sobel
gradient 2 is flagged blurry (2 is below the hard-coded fast threshold 5),
yet its normalized score is 19/40 = 0.475, well above the heavily-penalized
band below 0.3. -/
theorem blur_fast_threshold_counterexample :
    (detectBlurFastCore 2 0).isBlurry = true ∧
    ¬ (detectBlurFastCore 2 0).score < 3/10 ∧
    (detectBlurFastCore 2 0).score = 19/40 := by
  refine ⟨?_, ?_, ?_⟩ <;>
    norm_num [detectBlurFastCore, normalizeBlurScore, blurThresholdLow,
      blurThresholdHigh]

/-- Claim C8 amended: in the full path, isBlurry agrees with both the shared
low threshold and the sub-0.3 score band; in the fast path, isBlurry compares
the raw edge response against the hard-coded literal 5 while the sub-0.3
score band corresponds to edge response below 1 — the two are not linked
through shared constants there. -/
theorem blur_threshold_consistency_amended :
    (∀ variance : ℚ,
      ((detectBlurCore variance).isBlurry = true ↔ variance < blurThresholdLow) ∧
      ((detectBlurCore variance).isBlurry = true ↔ (detectBlurCore variance).score < 3/10)) ∧
    (∀ edgeResponse variance : ℚ,
      ((detectBlurFastCore edgeResponse variance).isBlurry = true ↔ edgeResponse < 5) ∧
      ((detectBlurFastCore edgeResponse variance).score < 3/10 ↔ edgeResponse < 1)) := by
  have hnorm : ∀ v : ℚ, (normalizeBlurScore v < 3/10 ↔ v < 100) := by
    intro v
    unfold normalizeBlurScore blurThresholdLow blurThresholdHigh
    split_ifs with h₁ h₂
    · constructor
      · intro h
        by_contra hge
        push_neg at hge
        have : v = 100 := le_antisymm h₁ hge
        rw [this] at h
        norm_num at h
      · intro h
        have : v / 100 * (3/10) = v * (3/1000) := by ring
        rw [this]
        linarith
    · constructor
      · intro h; norm_num at h
      · intro h; push_neg at h₁; linarith
    · push_neg at h₁
      constructor
      · intro h
        have hrw : (v - 100) / (500 - 100) * (7/10) = (v - 100) * (7/4000) := by ring
        rw [hrw] at h
        linarith
      · intro h; linarith
  refine ⟨fun variance => ⟨?_, ?_⟩, fun edgeResponse variance => ⟨?_, ?_⟩⟩
  · simp [detectBlurCore]
  · simp only [detectBlurCore, decide_eq_true_eq]
    rw [hnorm]
    unfold blurThresholdLow
    exact Iff.rfl
  · simp [detectBlurFastCore]
  · show normalizeBlurScore (edgeResponse * 100) < 3/10 ↔ _
    rw [hnorm]
    constructor
    · intro h; linarith
    · intro h; linarith

/-- Claim C4 counterexample: under the default configuration (face detection
enabled, minimum face confidence 0.4) and a ready face detector, the legacy
capture-readiness check in blur-detector.ts returns false for a clean frame
without a face but true for the identical frame with only its face fields
changed — face presence does gate that readiness check. -/
theorem face_gates_legacy_readiness_counterexample :
    isReadyForCaptureLegacy sampleNoFaceResult defaultDetectionConfig true = false ∧
    isReadyForCaptureLegacy (setFaceFields sampleNoFaceResult true (9/10) none)
      defaultDetectionConfig true = true := by
  refine ⟨?_, ?_⟩ <;>
    norm_num [isReadyForCaptureLegacy, setFaceFields, sampleNoFaceResult,
      defaultDetectionConfig]

/-- Claim C4 amended: the current aggregator (frame-analyzer.ts) is
face-blind — changing only the face fields of a DetectionResult never changes
its capture-readiness under any configuration; the legacy aggregator copy in
blur-detector.ts, by contrast, gates readiness on face presence when face
detection is enabled and the face detector is ready. -/
theorem readiness_face_blind_amended (result : DetectionResult)
    (config : DetectionConfig) (faceDetected : Bool) (faceConfidence : ℚ)
    (faceBounds : Option BoundingBox) :
    isReadyForCapture (setFaceFields result faceDetected faceConfidence faceBounds)
      config = isReadyForCapture result config := rfl

/-- Unfolding of the capture-readiness gates: a positive verdict pins down
every gated field. -/
theorem isReadyForCapture_spec (result : DetectionResult) (config : DetectionConfig)
    (h : isReadyForCapture result config = true) :
    result.documentDetected = true ∧
    config.minDocumentConfidence ≤ result.documentConfidence ∧
    result.isMoving = false ∧
    (config.enableBlurDetection = false ∨ result.isBlurry = false) ∧
    (config.enableGlareDetection = false ∨ result.hasGlare = false) := by
  unfold isReadyForCapture at h
  split_ifs at h with h1 h2 h3 h4
  simp only [Bool.or_eq_true, Bool.not_eq_true', decide_eq_true_eq, not_or,
    not_lt, Bool.and_eq_true, not_and] at h1 h3 h4
  rw [Bool.not_eq_true] at h2
  refine ⟨?_, h1.2, h2, ?_, ?_⟩
  · have := h1.1
    simp only [Bool.not_eq_false] at this
    exact this
  · cases hb : config.enableBlurDetection with
    | false => exact Or.inl rfl
    | true => exact Or.inr (by rw [Bool.not_eq_true] at h3; exact h3 hb)
  · cases hg : config.enableGlareDetection with
    | false => exact Or.inl rfl
    | true => exact Or.inr (by rw [Bool.not_eq_true] at h4; exact h4 hg)

/-- The readyForCapture field the analyzer publishes is precisely the
isReadyForCapture verdict on the published result itself (on the failure path
both sides reduce to false, the default result having no document). -/
theorem analyzeFrame_readyForCapture_eq (config : DetectionConfig)
    (docDetect : Except Unit DocumentDetectionResult)
    (blurDetect : Except Unit BlurDetectionResult)
    (glareDetect : Except Unit GlareDetectionResult)
    (faceDetect : Except Unit FaceDetectionResult)
    (tfReady faceDetectorReady : Bool) (timestamp : ℚ) :
    (analyzeFrame config docDetect blurDetect glareDetect faceDetect tfReady
        faceDetectorReady timestamp).readyForCapture =
      isReadyForCapture (analyzeFrame config docDetect blurDetect glareDetect
        faceDetect tfReady faceDetectorReady timestamp) config := by
  unfold analyzeFrame
  cases config.enableDocumentDetection <;> cases config.enableBlurDetection <;>
    cases config.enableGlareDetection <;>
    cases docDetect <;> cases blurDetect <;> cases glareDetect <;> rfl

/-- Claim C1: for every analyzed frame and configuration, a published result
with readyForCapture = true has a detected document whose confidence meets the
configured minimum, is not moving, and passes the blur and glare gates
whenever those detectors are enabled. -/
theorem analyzeFrame_readyForCapture_gates (config : DetectionConfig)
    (docDetect : Except Unit DocumentDetectionResult)
    (blurDetect : Except Unit BlurDetectionResult)
    (glareDetect : Except Unit GlareDetectionResult)
    (faceDetect : Except Unit FaceDetectionResult)
    (tfReady faceDetectorReady : Bool) (timestamp : ℚ)
    (h : (analyzeFrame config docDetect blurDetect glareDetect faceDetect tfReady
        faceDetectorReady timestamp).readyForCapture = true) :
    (analyzeFrame config docDetect blurDetect glareDetect faceDetect tfReady
        faceDetectorReady timestamp).documentDetected = true ∧
    config.minDocumentConfidence ≤
      (analyzeFrame config docDetect blurDetect glareDetect faceDetect tfReady
        faceDetectorReady timestamp).documentConfidence ∧
    (analyzeFrame config docDetect blurDetect glareDetect faceDetect tfReady
        faceDetectorReady timestamp).isMoving = false ∧
    (config.enableBlurDetection = false ∨
      (analyzeFrame config docDetect blurDetect glareDetect faceDetect tfReady
        faceDetectorReady timestamp).isBlurry = false) ∧
    (config.enableGlareDetection = false ∨
      (analyzeFrame config docDetect blurDetect glareDetect faceDetect tfReady
        faceDetectorReady timestamp).hasGlare = false) := by
  rw [analyzeFrame_readyForCapture_eq config docDetect blurDetect glareDetect
    faceDetect tfReady faceDetectorReady timestamp] at h
  exact isReadyForCapture_spec _ _ h

/-- Witness for C1: the clean sample frame is ready for capture and satisfies
all the gates. -/
theorem analyzeFrame_readyForCapture_gates_witness :
    sampleAnalyzedFrame.documentDetected = true ∧
    defaultDetectionConfig.minDocumentConfidence ≤
      sampleAnalyzedFrame.documentConfidence ∧
    sampleAnalyzedFrame.isMoving = false ∧
    (defaultDetectionConfig.enableBlurDetection = false ∨
      sampleAnalyzedFrame.isBlurry = false) ∧
    (defaultDetectionConfig.enableGlareDetection = false ∨
      sampleAnalyzedFrame.hasGlare = false) :=
  analyzeFrame_readyForCapture_gates defaultDetectionConfig (.ok sampleDocResult)
    (.ok sampleBlurResult) (.ok sampleGlareResult) (.ok emptyFaceResult) false false 0
    (by norm_num [analyzeFrame, isReadyForCapture, isDocumentMoving, sampleDocResult,
      sampleBlurResult, sampleGlareResult, emptyFaceResult, defaultDetectionConfig])

/-- Claim C9: the aggregator is total — a failure of the document, blur or
glare stage never escapes analyzeFrame; the returned value is the neutral
default with no document, zero confidence, not ready and poor quality. -/
theorem analyzeFrame_stage_failure_neutral (config : DetectionConfig)
    (docDetect : Except Unit DocumentDetectionResult)
    (blurDetect : Except Unit BlurDetectionResult)
    (glareDetect : Except Unit GlareDetectionResult)
    (faceDetect : Except Unit FaceDetectionResult)
    (tfReady faceDetectorReady : Bool) (timestamp : ℚ)
    (h : (config.enableDocumentDetection = true ∧ docDetect = .error ()) ∨
         (config.enableBlurDetection = true ∧ blurDetect = .error ()) ∨
         (config.enableGlareDetection = true ∧ glareDetect = .error ())) :
    analyzeFrame config docDetect blurDetect glareDetect faceDetect tfReady
        faceDetectorReady timestamp = defaultResult timestamp ∧
    (defaultResult timestamp).documentDetected = false ∧
    (defaultResult timestamp).documentConfidence = 0 ∧
    (defaultResult timestamp).readyForCapture = false ∧
    (defaultResult timestamp).overallQuality = .poor := by
  refine ⟨?_, rfl, rfl, rfl, rfl⟩
  unfold analyzeFrame
  rcases h with ⟨hc, he⟩ | ⟨hc, he⟩ | ⟨hc, he⟩
  · subst he
    simp [hc]
  · subst he
    cases hdd : config.enableDocumentDetection <;>
      cases docDetect <;> simp [hc, hdd]
  · subst he
    cases hdd : config.enableDocumentDetection <;>
      cases hbd : config.enableBlurDetection <;>
      cases docDetect <;> cases blurDetect <;> simp [hc, hdd, hbd]

/-- Witness for C9: a failing document stage under the default configuration
yields exactly the neutral default result. -/
theorem analyzeFrame_stage_failure_neutral_witness :
    analyzeFrame defaultDetectionConfig (.error ()) (.ok sampleBlurResult)
        (.ok sampleGlareResult) (.ok emptyFaceResult) false false 0 = defaultResult 0 ∧
    (defaultResult 0).documentDetected = false ∧
    (defaultResult 0).documentConfidence = 0 ∧
    (defaultResult 0).readyForCapture = false ∧
    (defaultResult 0).overallQuality = .poor :=
  analyzeFrame_stage_failure_neutral defaultDetectionConfig (.error ())
    (.ok sampleBlurResult) (.ok sampleGlareResult) (.ok emptyFaceResult) false false 0
    (Or.inl ⟨rfl, rfl⟩)

/-- Once captured, updateDetectionResult is a no-op. -/
theorem updateDetectionResult_captured (opts : AutoCaptureOptions)
    (s : ControllerState) (r : Bool) (now : ℚ) (h : s.hasCaptured = true) :
    updateDetectionResult opts s r now = s := by
  unfold updateDetectionResult
  rw [h, Bool.or_true, if_pos rfl]

/-- updateDetectionResult never changes the one-shot flag. -/
theorem updateDetectionResult_hasCaptured (opts : AutoCaptureOptions)
    (s : ControllerState) (r : Bool) (now : ℚ) :
    (updateDetectionResult opts s r now).hasCaptured = s.hasCaptured := by
  unfold updateDetectionResult startCountdown stopCountdown
  dsimp only
  split_ifs <;> simp_all

/-- A tick with no countdown running does nothing and fires nothing. -/
theorem tick_none (opts : AutoCaptureOptions) (s : ControllerState) (t : ℚ)
    (h : s.countdownStart = none) : tick opts s t = (s, false, []) := by
  unfold tick
  rw [h]

/-- Every step preserves the one-shot safety predicate. -/
theorem step_capturedIdle (opts : AutoCaptureOptions) (s : ControllerState)
    (e : Event) (h : capturedIdle s) : capturedIdle (step opts s e).1 := by
  cases e with
  | update r now =>
    intro hc
    cases hcap : s.hasCaptured with
    | true =>
      rw [show (step opts s (.update r now)).1 = updateDetectionResult opts s r now
          from rfl, updateDetectionResult_captured opts s r now hcap] at hc ⊢
      exact h hcap
    | false =>
      exfalso
      rw [show (step opts s (.update r now)).1 = updateDetectionResult opts s r now
          from rfl, updateDetectionResult_hasCaptured] at hc
      rw [hcap] at hc
      cases hc
  | tick t =>
    intro hc
    cases hs : s.countdownStart with
    | none =>
      rw [show (step opts s (.tick t)).1 = (tick opts s t).1 from rfl,
        tick_none opts s t hs]
      exact hs
    | some t₀ =>
      rw [show (step opts s (.tick t)).1 = (tick opts s t).1 from rfl] at hc ⊢
      unfold tick at hc ⊢
      rw [hs] at hc ⊢
      dsimp only at hc ⊢
      split_ifs at hc ⊢ with hexp
      · rfl
      · exact absurd hs (by rw [h hc]; exact Option.some_ne_none t₀ ∘ Eq.symm)
  | cancelEv =>
    intro _
    rfl

/-- A fired tick leaves the controller captured. -/
theorem step_fired_captured (opts : AutoCaptureOptions) (s : ControllerState)
    (e : Event) (h : (step opts s e).2 = true) :
    (step opts s e).1.hasCaptured = true := by
  cases e with
  | update r now => cases h
  | cancelEv => cases h
  | tick t =>
    cases hs : s.countdownStart with
    | none => rw [show step opts s (.tick t) = ((tick opts s t).1, (tick opts s t).2.1)
        from rfl, tick_none opts s t hs] at h; cases h
    | some t₀ =>
      rw [show step opts s (.tick t) = ((tick opts s t).1, (tick opts s t).2.1)
        from rfl] at h ⊢
      unfold tick at h ⊢
      rw [hs] at h ⊢
      dsimp only at h ⊢
      split_ifs at h ⊢
      rfl

/-- After the capture has fired, no further event of the session fires the
callback again. -/
theorem captureCount_of_captured (opts : AutoCaptureOptions) (evs : List Event) :
    ∀ s : ControllerState, s.hasCaptured = true → capturedIdle s →
      captureCount opts s evs = 0 := by
  induction evs with
  | nil => intro s _ _; rfl
  | cons e es ih =>
    intro s hc hj
    have hstep : (step opts s e).2 = false ∧ (step opts s e).1.hasCaptured = true := by
      cases e with
      | update r now =>
        refine ⟨rfl, ?_⟩
        rw [show (step opts s (.update r now)).1 = updateDetectionResult opts s r now
          from rfl, updateDetectionResult_captured opts s r now hc]
        exact hc
      | tick t =>
        rw [show step opts s (.tick t) = ((tick opts s t).1, (tick opts s t).2.1)
          from rfl, tick_none opts s t (hj hc)]
        exact ⟨rfl, hc⟩
      | cancelEv => exact ⟨rfl, hc⟩
    unfold captureCount
    rw [hstep.1, if_neg Bool.false_ne_true, Nat.zero_add]
    exact ih _ hstep.2 (step_capturedIdle opts s e hj)

/-- From any state satisfying the one-shot predicate, at most one capture can
fire along any event sequence. -/
theorem captureCount_le_one (opts : AutoCaptureOptions) (evs : List Event) :
    ∀ s : ControllerState, capturedIdle s → captureCount opts s evs ≤ 1 := by
  induction evs with
  | nil => intro s _; exact Nat.zero_le 1
  | cons e es ih =>
    intro s hj
    unfold captureCount
    cases hf : (step opts s e).2 with
    | true =>
      rw [if_pos rfl, captureCount_of_captured opts es _ (step_fired_captured opts s e hf)
        (step_capturedIdle opts s e hj)]
    | false =>
      rw [if_neg Bool.false_ne_true, Nat.zero_add]
      exact ih _ (step_capturedIdle opts s e hj)

/-- Claim C2: within one session (no reset), the capture callback fires at
most once over any sequence of detection results, ticks and cancellations; a
re-entrant tick after expiry is a no-op that fires nothing; and once captured,
every delivered DetectionResult leaves the state untouched. -/
theorem autoCapture_one_shot (opts : AutoCaptureOptions) :
    (∀ events : List Event,
      captureCount opts (initControllerState opts) events ≤ 1) ∧
    (∀ (s : ControllerState) (r : Bool) (now : ℚ), s.hasCaptured = true →
      updateDetectionResult opts s r now = s) ∧
    (∀ (s : ControllerState) (now : ℚ), s.countdownStart = none →
      tick opts s now = (s, false, [])) := by
  refine ⟨fun events => ?_, updateDetectionResult_captured opts, tick_none opts⟩
  exact captureCount_le_one opts events _ (fun h => by cases h)

/-- Witness for C2: a concrete session of three ready frames, an expiring
tick, a re-entrant tick and a late result fires at most once; a captured
state ignores results and idle ticks. -/
theorem autoCapture_one_shot_witness :
    captureCount sampleOpts (initControllerState sampleOpts)
      [Event.update true 0, Event.update true 10, Event.update true 20,
       Event.tick 3000, Event.tick 3010, Event.update true 3020] ≤ 1 ∧
    updateDetectionResult sampleOpts sampleCapturedState true 0 = sampleCapturedState ∧
    tick sampleOpts sampleCapturedState 100 = (sampleCapturedState, false, []) :=
  ⟨(autoCapture_one_shot sampleOpts).1 _,
   (autoCapture_one_shot sampleOpts).2.1 sampleCapturedState true 0 rfl,
   (autoCapture_one_shot sampleOpts).2.2 sampleCapturedState 100 rfl⟩

/-- runUpdates distributes over list append. -/
theorem runUpdates_append (opts : AutoCaptureOptions) :
    ∀ (l₁ l₂ : List (Bool × ℚ)) (s : ControllerState),
      runUpdates opts s (l₁ ++ l₂) = runUpdates opts (runUpdates opts s l₁) l₂ := by
  intro l₁
  induction l₁ with
  | nil => intro l₂ s; rfl
  | cons p l₁ ih =>
    intro l₂ s
    cases p
    simp only [List.cons_append, runUpdates]
    exact ih l₂ _

/-- A bad frame strictly inside the grace window only bumps the unstable
counter. -/
theorem update_bad_inGrace (opts : AutoCaptureOptions) (s : ControllerState) (t : ℚ)
    (hen : opts.enabled = true) (hcap : s.hasCaptured = false)
    (hlt : s.unstableFrameCount + 1 < opts.gracePeriodFrames) :
    updateDetectionResult opts s false t =
      { s with unstableFrameCount := s.unstableFrameCount + 1 } := by
  unfold updateDetectionResult
  simp [hen, hcap, Nat.not_le.mpr hlt]

/-- A bad frame that reaches the grace threshold while a countdown is running
resets the controller to Idle with both counters zeroed. -/
theorem update_bad_graceHit (opts : AutoCaptureOptions) (s : ControllerState) (t : ℚ)
    (hen : opts.enabled = true) (hcap : s.hasCaptured = false)
    (hsome : s.countdownStart.isSome = true)
    (hge : opts.gracePeriodFrames ≤ s.unstableFrameCount + 1) :
    updateDetectionResult opts s false t =
      { countdownStart := none, rafPending := false, stableFrameCount := 0,
        unstableFrameCount := 0, hasCaptured := false,
        state := { isCountingDown := false, countdownProgress := 0,
                   remainingMs := opts.delayMs, shouldCapture := false } } := by
  unfold updateDetectionResult stopCountdown
  simp [hen, hcap, hge, hsome]

/-- A ready frame while a countdown is already running only moves the
counters. -/
theorem update_good_inCountdown (opts : AutoCaptureOptions) (s : ControllerState)
    (t t₀ : ℚ) (hen : opts.enabled = true) (hcap : s.hasCaptured = false)
    (hstart : s.countdownStart = some t₀) :
    updateDetectionResult opts s true t =
      { s with unstableFrameCount := 0,
               stableFrameCount := s.stableFrameCount + 1 } := by
  unfold updateDetectionResult
  simp [hen, hcap, hstart]

/-- Bad frames below the grace threshold accumulate in the unstable counter
and change nothing else. -/
theorem runUpdates_bad_inGrace (opts : AutoCaptureOptions) (hen : opts.enabled = true) :
    ∀ (ts : List ℚ) (s : ControllerState), s.hasCaptured = false →
      s.unstableFrameCount + ts.length < opts.gracePeriodFrames →
      (runUpdates opts s (ts.map fun t => (false, t))).countdownStart = s.countdownStart ∧
      (runUpdates opts s (ts.map fun t => (false, t))).stableFrameCount = s.stableFrameCount ∧
      (runUpdates opts s (ts.map fun t => (false, t))).unstableFrameCount =
        s.unstableFrameCount + ts.length ∧
      (runUpdates opts s (ts.map fun t => (false, t))).hasCaptured = false ∧
      (runUpdates opts s (ts.map fun t => (false, t))).state = s.state := by
  intro ts
  induction ts with
  | nil =>
    intro s hcap _
    exact ⟨rfl, rfl, by simp [runUpdates], hcap, rfl⟩
  | cons t ts ih =>
    intro s hcap hlen
    have hlt : s.unstableFrameCount + 1 < opts.gracePeriodFrames := by
      simp only [List.length_cons] at hlen
      omega
    have hlen' : ({ s with unstableFrameCount := s.unstableFrameCount + 1 } :
        ControllerState).unstableFrameCount + ts.length < opts.gracePeriodFrames := by
      show s.unstableFrameCount + 1 + ts.length < opts.gracePeriodFrames
      simp only [List.length_cons] at hlen
      omega
    simp only [List.map_cons, runUpdates, update_bad_inGrace opts s t hen hcap hlt]
    obtain ⟨h1, h2, h3, h4, h5⟩ :=
      ih { s with unstableFrameCount := s.unstableFrameCount + 1 } hcap hlen'
    refine ⟨h1, h2, ?_, h4, h5⟩
    rw [h3]
    show s.unstableFrameCount + 1 + ts.length = s.unstableFrameCount + (t :: ts).length
    simp only [List.length_cons]
    omega

/-- Ready frames while a countdown is running never restart or stop it. -/
theorem runUpdates_good_inCountdown (opts : AutoCaptureOptions) (hen : opts.enabled = true) :
    ∀ (ts : List ℚ) (s : ControllerState) (t₀ : ℚ), s.hasCaptured = false →
      s.countdownStart = some t₀ →
      (runUpdates opts s (ts.map fun t => (true, t))).countdownStart = some t₀ ∧
      (runUpdates opts s (ts.map fun t => (true, t))).hasCaptured = false := by
  intro ts
  induction ts with
  | nil => intro s t₀ hcap hstart; exact ⟨hstart, hcap⟩
  | cons t ts ih =>
    intro s t₀ hcap hstart
    simp only [List.map_cons, runUpdates,
      update_good_inCountdown opts s t t₀ hen hcap hstart]
    exact ih _ t₀ hcap hstart

/-- Claim C3: from a state that has just entered a countdown (started at t₀,
unstable counter zeroed by startCountdown), up to gracePeriodFrames - 1
consecutive bad frames followed by any number of ready frames leave the
countdown running, while exactly gracePeriodFrames consecutive bad frames
return the controller to Idle with both frame counters zeroed. -/
theorem grace_period_behavior (opts : AutoCaptureOptions) (s : ControllerState)
    (t₀ : ℚ) (hen : opts.enabled = true) (hcap : s.hasCaptured = false)
    (hstart : s.countdownStart = some t₀) (hunst : s.unstableFrameCount = 0)
    (hg : 1 ≤ opts.gracePeriodFrames) :
    (∀ badTimes goodTimes : List ℚ, badTimes.length < opts.gracePeriodFrames →
      (runUpdates opts s (badTimes.map (fun t => (false, t)) ++
        goodTimes.map (fun t => (true, t)))).countdownStart = some t₀) ∧
    (∀ badTimes : List ℚ, badTimes.length = opts.gracePeriodFrames →
      (runUpdates opts s (badTimes.map (fun t => (false, t)))).countdownStart = none ∧
      (runUpdates opts s (badTimes.map (fun t => (false, t)))).stableFrameCount = 0 ∧
      (runUpdates opts s (badTimes.map (fun t => (false, t)))).unstableFrameCount = 0 ∧
      (runUpdates opts s
        (badTimes.map (fun t => (false, t)))).state.isCountingDown = false) := by
  constructor
  · intro badTimes goodTimes hblen
    rw [runUpdates_append]
    obtain ⟨hb1, hb2, hb3, hb4, hb5⟩ :=
      runUpdates_bad_inGrace opts hen badTimes s hcap (by omega)
    exact (runUpdates_good_inCountdown opts hen goodTimes _ t₀ hb4
      (hb1.trans hstart)).1
  · intro badTimes hblen
    rcases List.eq_nil_or_concat badTimes with rfl | ⟨ts₁, tl, rfl⟩
    · exfalso
      rw [List.length_nil] at hblen
      omega
    · simp only [List.concat_eq_append] at hblen ⊢
      have hlen₁ : ts₁.length + 1 = opts.gracePeriodFrames := by
        simpa using hblen
      obtain ⟨hb1, hb2, hb3, hb4, hb5⟩ :=
        runUpdates_bad_inGrace opts hen ts₁ s hcap (by omega)
      have hmap : (ts₁ ++ [tl]).map (fun t => ((false, t) : Bool × ℚ)) =
          ts₁.map (fun t => (false, t)) ++ [(false, tl)] := by simp
      rw [hmap, runUpdates_append]
      have hfinal : runUpdates opts (runUpdates opts s (ts₁.map fun t => (false, t)))
          [(false, tl)] =
          updateDetectionResult opts (runUpdates opts s (ts₁.map fun t => (false, t)))
            false tl := rfl
      rw [hfinal, update_bad_graceHit opts _ tl hen hb4
        (by rw [hb1, hstart]; rfl)
        (by rw [hb3, hunst]; omega)]
      exact ⟨rfl, rfl, rfl, rfl⟩

/-- Witness for C3: with the part_017 options, three bad frames then a good
frame keep the countdown started at time 0 running, while four bad frames
reset to Idle. -/
theorem grace_period_behavior_witness :
    (runUpdates sampleOpts sampleCountdownState
      (([(1:ℚ), 2, 3].map (fun t => (false, t))) ++
        ([(4:ℚ)].map (fun t => (true, t))))).countdownStart = some 0 ∧
    (runUpdates sampleOpts sampleCountdownState
      ([(1:ℚ), 2, 3, 4].map (fun t => (false, t)))).countdownStart = none :=
  ⟨(grace_period_behavior sampleOpts sampleCountdownState 0 rfl rfl rfl rfl
      (by decide)).1 [1, 2, 3] [4] (by decide),
   ((grace_period_behavior sampleOpts sampleCountdownState 0 rfl rfl rfl rfl
      (by decide)).2 [1, 2, 3, 4] (by decide)).1⟩

/-- A ready frame with no countdown running and the stable counter still
below the threshold only moves the counters. -/
theorem update_good_idle (opts : AutoCaptureOptions) (s : ControllerState) (t : ℚ)
    (hen : opts.enabled = true) (hcap : s.hasCaptured = false)
    (hstart : s.countdownStart = none)
    (hlt : s.stableFrameCount + 1 < opts.minStableFrames) :
    updateDetectionResult opts s true t =
      { s with unstableFrameCount := 0,
               stableFrameCount := s.stableFrameCount + 1 } := by
  unfold updateDetectionResult
  simp [hen, hcap, hstart, Nat.not_le.mpr hlt]

/-- A ready frame that reaches the stable threshold with no countdown running
starts the countdown at that frame time. -/
theorem update_good_start (opts : AutoCaptureOptions) (s : ControllerState) (t : ℚ)
    (hen : opts.enabled = true) (hcap : s.hasCaptured = false)
    (hstart : s.countdownStart = none)
    (hge : opts.minStableFrames ≤ s.stableFrameCount + 1) :
    updateDetectionResult opts s true t =
      { countdownStart := some t, rafPending := true,
        stableFrameCount := s.stableFrameCount + 1, unstableFrameCount := 0,
        hasCaptured := false, state := s.state } := by
  unfold updateDetectionResult startCountdown
  simp [hen, hcap, hstart, hge]

/-- Ready frames from Idle accumulate in the stable counter and start no
countdown while below the threshold. -/
theorem runUpdates_good_idle (opts : AutoCaptureOptions) (hen : opts.enabled = true) :
    ∀ (ts : List ℚ) (s : ControllerState), s.hasCaptured = false →
      s.countdownStart = none →
      s.stableFrameCount + ts.length < opts.minStableFrames →
      (runUpdates opts s (ts.map fun t => (true, t))).countdownStart = none ∧
      (runUpdates opts s (ts.map fun t => (true, t))).stableFrameCount =
        s.stableFrameCount + ts.length ∧
      (runUpdates opts s (ts.map fun t => (true, t))).hasCaptured = false ∧
      (runUpdates opts s (ts.map fun t => (true, t))).state = s.state := by
  intro ts
  induction ts with
  | nil =>
    intro s hcap hstart _
    exact ⟨hstart, by simp [runUpdates], hcap, rfl⟩
  | cons t ts ih =>
    intro s hcap hstart hlen
    have hlt : s.stableFrameCount + 1 < opts.minStableFrames := by
      simp only [List.length_cons] at hlen
      omega
    have hlen' : ({ s with
          unstableFrameCount := 0,
          stableFrameCount := s.stableFrameCount + 1 } :
        ControllerState).stableFrameCount + ts.length < opts.minStableFrames := by
      show s.stableFrameCount + 1 + ts.length < opts.minStableFrames
      simp only [List.length_cons] at hlen
      omega
    simp only [List.map_cons, runUpdates,
      update_good_idle opts s t hen hcap hstart hlt]
    obtain ⟨h1, h2, h3, h4⟩ := ih { s with
      unstableFrameCount := 0,
      stableFrameCount := s.stableFrameCount + 1 } hcap hstart hlen'
    refine ⟨h1, ?_, h3, h4⟩
    rw [h2]
    show s.stableFrameCount + 1 + ts.length = s.stableFrameCount + (t :: ts).length
    simp only [List.length_cons]
    omega

/-- Claim C5: cancelling a running countdown forces Idle with the timer
cleared, the counters zeroed and the idle snapshot published; one subsequent
ready frame (with minStableFrames at least 2) starts no countdown and fires
no capture; fewer than minStableFrames ready frames keep the controller out
of a countdown, and a full fresh run of minStableFrames ready frames starts
one again. -/
theorem cancel_requires_fresh_run (opts : AutoCaptureOptions) (s : ControllerState)
    (t₀ : ℚ) (hen : opts.enabled = true) (hmin : 2 ≤ opts.minStableFrames)
    (hstart : s.countdownStart = some t₀) (hcap : s.hasCaptured = false) :
    (cancel opts s).countdownStart = none ∧
    (cancel opts s).rafPending = false ∧
    (cancel opts s).stableFrameCount = 0 ∧
    (cancel opts s).unstableFrameCount = 0 ∧
    (cancel opts s).state = { isCountingDown := false, countdownProgress := 0, remainingMs := opts.delayMs, shouldCapture := false } ∧
    (∀ t : ℚ,
      (updateDetectionResult opts (cancel opts s) true t).countdownStart = none ∧
      (updateDetectionResult opts (cancel opts s) true t).state.shouldCapture = false ∧
      captureCount opts (cancel opts s) [Event.update true t] = 0) ∧
    (∀ ts : List ℚ, ts.length < opts.minStableFrames →
      (runUpdates opts (cancel opts s)
        (ts.map fun t => (true, t))).countdownStart = none) ∧
    (∀ ts : List ℚ, ts.length = opts.minStableFrames →
      ((runUpdates opts (cancel opts s)
        (ts.map fun t => (true, t))).countdownStart).isSome = true) := by
  have hcap' : (cancel opts s).hasCaptured = false := hcap
  have hstart' : (cancel opts s).countdownStart = none := rfl
  refine ⟨rfl, rfl, rfl, rfl, rfl, ?_, ?_, ?_⟩
  · intro t
    rw [update_good_idle opts (cancel opts s) t hen hcap' hstart'
      (show (0:ℕ) + 1 < opts.minStableFrames by omega)]
    exact ⟨rfl, rfl, rfl⟩
  · intro ts hlen
    exact (runUpdates_good_idle opts hen ts (cancel opts s) hcap' hstart'
      (show (0:ℕ) + ts.length < opts.minStableFrames by omega)).1
  · intro ts hlen
    rcases List.eq_nil_or_concat ts with rfl | ⟨ts₁, tl, rfl⟩
    · exfalso
      rw [List.length_nil] at hlen
      omega
    · simp only [List.concat_eq_append] at hlen ⊢
      have hlen₁ : ts₁.length + 1 = opts.minStableFrames := by
        simpa using hlen
      obtain ⟨g1, g2, g3, g4⟩ := runUpdates_good_idle opts hen ts₁ (cancel opts s)
        hcap' hstart' (show (0:ℕ) + ts₁.length < opts.minStableFrames by omega)
      have hmap : (ts₁ ++ [tl]).map (fun t => ((true, t) : Bool × ℚ)) =
          ts₁.map (fun t => (true, t)) ++ [(true, tl)] := by simp
      rw [hmap, runUpdates_append]
      have hfinal : runUpdates opts (runUpdates opts (cancel opts s)
          (ts₁.map fun t => (true, t))) [(true, tl)] =
          updateDetectionResult opts (runUpdates opts (cancel opts s)
            (ts₁.map fun t => (true, t))) true tl := rfl
      rw [hfinal, update_good_start opts _ tl hen g3 g1
        (by rw [g2]
            show opts.minStableFrames ≤ 0 + ts₁.length + 1
            omega)]
      rfl

/-- Witness for C5: cancelling the sample countdown reaches Idle; one ready
frame starts nothing; three ready frames (the sample threshold) start a new
countdown. -/
theorem cancel_requires_fresh_run_witness :
    (cancel sampleOpts sampleCountdownState).countdownStart = none ∧
    (updateDetectionResult sampleOpts (cancel sampleOpts sampleCountdownState)
      true 50).countdownStart = none ∧
    ((runUpdates sampleOpts (cancel sampleOpts sampleCountdownState)
      ([(60:ℚ), 70, 80].map fun t => (true, t))).countdownStart).isSome = true := by
  have h := cancel_requires_fresh_run sampleOpts sampleCountdownState 0 rfl
    (by decide) rfl rfl
  exact ⟨h.1, (h.2.2.2.2.2.1 50).1, h.2.2.2.2.2.2.2 [60, 70, 80] (by decide)⟩

/-- The snapshots a tick publishes on the expiry path. -/
theorem tick_emitted_expiry (opts : AutoCaptureOptions) (s : ControllerState)
    (t₀ t : ℚ) (hs : s.countdownStart = some t₀)
    (hexp : opts.delayMs ≤ t - t₀) :
    (tick opts s t).2.2 =
      [{ isCountingDown := true, countdownProgress := min ((t - t₀) / opts.delayMs) 1, remainingMs := max 0 (opts.delayMs - (t - t₀)), shouldCapture := false },
       { isCountingDown := true, countdownProgress := 1, remainingMs := 0, shouldCapture := true }] := by
  unfold tick
  rw [hs]
  dsimp only
  rw [if_pos hexp]

/-- The snapshot a tick publishes while the countdown is still running. -/
theorem tick_emitted_active (opts : AutoCaptureOptions) (s : ControllerState)
    (t₀ t : ℚ) (hs : s.countdownStart = some t₀)
    (hlt : ¬ opts.delayMs ≤ t - t₀) :
    (tick opts s t).2.2 =
      [{ isCountingDown := true, countdownProgress := min ((t - t₀) / opts.delayMs) 1, remainingMs := max 0 (opts.delayMs - (t - t₀)), shouldCapture := false }] := by
  unfold tick
  rw [hs]
  dsimp only
  rw [if_neg hlt]

/-- The idle snapshot satisfies the AutoCaptureState invariant. -/
theorem idle_ui_inv (opts : AutoCaptureOptions) (hd : 0 < opts.delayMs) :
    autoCaptureStateInv opts
      { isCountingDown := false, countdownProgress := 0, remainingMs := opts.delayMs, shouldCapture := false } :=
  ⟨le_refl 0, zero_le_one, hd.le, le_refl _, by ring_nf,
   fun h => absurd h Bool.false_ne_true⟩

/-- The running snapshot built from a nonnegative elapsed time satisfies the
AutoCaptureState invariant. -/
theorem running_ui_inv (opts : AutoCaptureOptions) (hd : 0 < opts.delayMs)
    (e : ℚ) (he : 0 ≤ e) :
    autoCaptureStateInv opts
      { isCountingDown := true, countdownProgress := min (e / opts.delayMs) 1, remainingMs := max 0 (opts.delayMs - e), shouldCapture := false } := by
  refine ⟨le_min (div_nonneg he hd.le) zero_le_one, min_le_right _ _,
    le_max_left _ _, max_le hd.le (by linarith), ?_,
    fun h => absurd h Bool.false_ne_true⟩
  show max 0 (opts.delayMs - e) = opts.delayMs * (1 - min (e / opts.delayMs) 1)
  by_cases hcase : e ≤ opts.delayMs
  · rw [min_eq_left ((div_le_one hd).mpr hcase), max_eq_right (by linarith)]
    field_simp
  · push_neg at hcase
    rw [min_eq_right ((one_le_div hd).mpr hcase.le), max_eq_left (by linarith)]
    ring_nf

/-- The expiry snapshot satisfies the AutoCaptureState invariant. -/
theorem expiry_ui_inv (opts : AutoCaptureOptions) (hd : 0 < opts.delayMs) :
    autoCaptureStateInv opts
      { isCountingDown := true, countdownProgress := 1, remainingMs := 0, shouldCapture := true } :=
  ⟨zero_le_one, le_refl 1, le_refl 0, hd.le, by ring_nf,
   fun _ => ⟨rfl, rfl⟩⟩

/-- Claim C10: every AutoCaptureState the hook ever publishes — the initial
state, the stop snapshot, and every snapshot of a tick (running and expiry)
under a monotone clock — has countdownProgress in [0, 1], remainingMs in
[0, delayMs], remainingMs equal to delayMs times (1 - countdownProgress), and
shouldCapture only together with progress 1 and zero remaining time. -/
theorem autoCaptureState_invariant (opts : AutoCaptureOptions)
    (hd : 0 < opts.delayMs) :
    autoCaptureStateInv opts (initControllerState opts).state ∧
    (∀ s : ControllerState, autoCaptureStateInv opts (stopCountdown opts s).state) ∧
    (∀ (s : ControllerState) (t₀ t : ℚ), s.countdownStart = some t₀ → t₀ ≤ t →
      ∀ u ∈ (tick opts s t).2.2, autoCaptureStateInv opts u) := by
  refine ⟨idle_ui_inv opts hd, fun s => idle_ui_inv opts hd, ?_⟩
  intro s t₀ t hs hle u hu
  by_cases hexp : opts.delayMs ≤ t - t₀
  · rw [tick_emitted_expiry opts s t₀ t hs hexp] at hu
    rcases List.mem_cons.mp hu with rfl | hu
    · exact running_ui_inv opts hd (t - t₀) (by linarith)
    · rcases List.mem_cons.mp hu with rfl | hu
      · exact expiry_ui_inv opts hd
      · exact absurd hu (List.not_mem_nil u)
  · rw [tick_emitted_active opts s t₀ t hs hexp] at hu
    rcases List.mem_cons.mp hu with rfl | hu
    · exact running_ui_inv opts hd (t - t₀) (by linarith)
    · exact absurd hu (List.not_mem_nil u)

/-- Witness for C10: the invariant holds at the sample options for the
initial state, a stop snapshot, and all snapshots of a tick at time 3000 of
the countdown started at time 0. -/
theorem autoCaptureState_invariant_witness :
    autoCaptureStateInv sampleOpts (initControllerState sampleOpts).state ∧
    autoCaptureStateInv sampleOpts
      (stopCountdown sampleOpts sampleCountdownState).state ∧
    (∀ u ∈ (tick sampleOpts sampleCountdownState 3000).2.2,
      autoCaptureStateInv sampleOpts u) :=
  ⟨(autoCaptureState_invariant sampleOpts (by norm_num [sampleOpts])).1,
   (autoCaptureState_invariant sampleOpts (by norm_num [sampleOpts])).2.1
     sampleCountdownState,
   (autoCaptureState_invariant sampleOpts (by norm_num [sampleOpts])).2.2
     sampleCountdownState 0 3000 rfl (by norm_num)⟩

end IdvSdk
